import Mathlib

/-!
Verification of the NLCD county animation pipeline (`src/main.py`).

The development shallowly embeds the pipeline core:
  * `get_extent`   — boundary resolution (pandas `query` + `to_crs` + `squeeze`),
  * `clipData`     — the masking step `data[mask] = src.nodata`,
  * `recolor`      — the colormap loop `rgb_image[data == cls] = rgb[:4]`
                     with numpy uint8 broadcast-assignment semantics,
  * `pyRange` / `mainModel` — the orchestration loop `for year in range(start, stop, step)`
                     followed by `imageio.mimsave('nlcd.gif', images, fps=4, loop=0)`,
  * `displayStep`  — the file write of `nlcd.gif` and its read-back for display.

Rasters are modelled as functions from pixel coordinates, geometries as abstract
shapes tagged with the CRS they are expressed in, and the boundary table as a
list of records with `NAME_1` (state) and `NAME_2` (county) fields.
-/

namespace NLCD

/-- A geometry: an abstract shape identifier plus the coordinate reference
system (CRS) it is currently expressed in.  Reprojection (`to_crs` in the
source) only changes the CRS tag. -/
structure Geometry where
  shape : Nat
  crs : Nat
  deriving DecidableEq, Repr

/-- Model of GeoPandas `to_crs`: re-express a geometry in the target CRS. -/
def to_crs (c : Nat) (g : Geometry) : Geometry :=
  { g with crs := c }

/-- One record of the `USA_adm2` boundary table: level-1 name (state),
level-2 name (county) and the polygon geometry. -/
structure BoundaryRec where
  name_1 : String
  name_2 : String
  geometry : Geometry
  deriving DecidableEq, Repr

/-- Result of pandas `.squeeze()`: a one-element series collapses to its
single scalar element; an empty or multi-element series is returned
unchanged. -/
inductive Squeezed (α : Type) where
  | scalar (a : α)
  | series (xs : List α)
  deriving DecidableEq, Repr

/-- Model of pandas `.squeeze()` on a series. -/
def squeeze {α : Type} : List α → Squeezed α
  | [x] => Squeezed.scalar x
  | xs => Squeezed.series xs

/-- Model of `USA.query(f'NAME_1 == "{state}" and NAME_2 == "{county}"')`:
keep exactly the records whose two name fields match. -/
def queryUSA (usa : List BoundaryRec) (state county : String) : List BoundaryRec :=
  usa.filter (fun r => r.name_1 == state && r.name_2 == county)

/-- An opened yearly raster source (`rio.open(URL.format(year=year))`):
its CRS, nodata sentinel, band-1 colormap, and — for a given boundary
geometry — the cropped window's shape, the windowed band-1 read, and the
`raster_geometry_mask` result (`true` = pixel center outside the boundary,
since the source passes `invert=False`). -/
structure RasterSrc where
  crs : Nat
  nodata : Int
  colormap : List (Int × List Nat)
  winShape : Squeezed Geometry → Nat × Nat
  readWin : Squeezed Geometry → Nat → Nat → Int
  maskOf : Squeezed Geometry → Nat → Nat → Bool

/-- The environment the pipeline runs in: which raster source each year's
URL opens to, and the loaded boundary table. -/
structure Env where
  srcOf : Int → RasterSrc
  usa : List BoundaryRec

/-- Model of `get_extent(state, county)` from the source: open the year-1985
raster (the year in the URL is hard-coded to 1985), filter the boundary
table on the two names, reproject to the 1985 raster's CRS, take the
geometry column and `squeeze` it.  No zero-match or multi-match guard
exists: the squeezed result is returned as-is. -/
def get_extent (env : Env) (state county : String) : Squeezed Geometry :=
  squeeze ((queryUSA env.usa state county).map
    (fun r => to_crs (env.srcOf 1985).crs r.geometry))

/-- Boundary-table fixture: one uniquely named county, plus a duplicated
(state, county) pair. -/
def usaFix : List BoundaryRec :=
  [⟨"Maine", "York", ⟨7, 4326⟩⟩, ⟨"Dup", "D", ⟨1, 4326⟩⟩, ⟨"Dup", "D", ⟨2, 4326⟩⟩]

/-- Raster fixture: CRS 42, nodata 250, empty colormap, constant window. -/
def srcFix : RasterSrc :=
  { crs := 42
    nodata := 250
    colormap := []
    winShape := fun _ => (10, 10)
    readWin := fun _ _ _ => 11
    maskOf := fun _ _ _ => false }

/-- Environment fixture combining `srcFix` (for every year) and `usaFix`. -/
def envFix : Env :=
  { srcOf := fun _ => srcFix, usa := usaFix }

/-- C1: boundary resolution raises no errors.  On the unique match
("Maine", "York") it returns the single reprojected geometry, but on zero
matches it silently returns the empty series and on two matches the
two-element series — no `NotFoundError` or `AmbiguousMatchError` exists in
the code. -/
theorem get_extent_missing_guards :
    get_extent envFix "Maine" "York" = Squeezed.scalar ⟨7, 42⟩ ∧
    get_extent envFix "Atlantis" "X" = Squeezed.series [] ∧
    get_extent envFix "Dup" "D" = Squeezed.series [⟨1, 42⟩, ⟨2, 42⟩] := by
  refine ⟨rfl, rfl, rfl⟩

/-- Model of the masking step `data[mask] = src.nodata`: every pixel whose
mask entry is `true` (center outside the boundary) becomes the nodata
sentinel; every other pixel keeps its windowed-read value. -/
def clipData (nodata : Int) (data : Nat → Nat → Int) (mask : Nat → Nat → Bool) :
    Nat → Nat → Int :=
  fun i j => if mask i j then nodata else data i j

/-- C2: clipping sets every outside-center pixel to the nodata sentinel,
keeps every inside-center pixel's original class code from the windowed
read, and is idempotent for a fixed boundary mask. -/
theorem clipData_spec (nodata : Int) (data : Nat → Nat → Int) (mask : Nat → Nat → Bool)
    (i j : Nat) :
    (mask i j = true → clipData nodata data mask i j = nodata) ∧
    (mask i j = false → clipData nodata data mask i j = data i j) ∧
    clipData nodata (clipData nodata data mask) mask = clipData nodata data mask := by
  refine ⟨fun h => by simp [clipData, h], fun h => by simp [clipData, h], ?_⟩
  funext a b
  by_cases h : mask a b <;> simp [clipData, h]

/-- Concrete instance of `clipData_spec`: on a 2×2 window whose mask marks
pixel (0,0) as outside, the clipped value there is the nodata sentinel 250,
pixel (0,1) keeps its read value, and re-clipping changes nothing. -/
theorem clipData_spec_witness :
    clipData 250 (fun i j => (i + 2 * j : Int)) (fun i j => i == 0 && j == 0) 0 0 = 250 ∧
    clipData 250 (fun i j => (i + 2 * j : Int)) (fun i j => i == 0 && j == 0) 0 1 = 2 ∧
    clipData 250
        (clipData 250 (fun i j => (i + 2 * j : Int)) (fun i j => i == 0 && j == 0))
        (fun i j => i == 0 && j == 0) =
      clipData 250 (fun i j => (i + 2 * j : Int)) (fun i j => i == 0 && j == 0) :=
  ⟨(clipData_spec 250 _ _ 0 0).1 rfl,
   ((clipData_spec 250 _ _ 0 1).2.1 rfl).trans rfl,
   (clipData_spec 250 _ _ 0 0).2.2⟩

/-- The all-zero RGBA image `np.zeros((*data.shape, 4), dtype=np.uint8)`,
as a function from pixel coordinates to the 4 channel values. -/
def zeroImage : Nat → Nat → List Nat :=
  fun _ _ => [0, 0, 0, 0]

/-- numpy broadcast semantics of assigning `rgb[:4]` into the selected
4-channel pixels of a uint8 image: a length-4 vector is stored per channel
(cast to uint8, i.e. mod 256); a length-1 vector is broadcast into all four
channels; any other length (0, 2 or 3 after `[:4]`) is a broadcast shape
mismatch and the assignment raises. -/
def bcastVec (rgb : List Nat) : Option (List Nat) :=
  if ((rgb.take 4).map (fun x => x % 256)).length = 4 then
    some ((rgb.take 4).map (fun x => x % 256))
  else if ((rgb.take 4).map (fun x => x % 256)).length = 1 then
    some (List.replicate 4 (((rgb.take 4).map (fun x => x % 256)).headD 0))
  else none

/-- Pointwise effect of `rgb_image[data == cls] = v`: pixels whose class
code equals `cls` receive `v`; all others are untouched. -/
def assignCls (grid : Nat → Nat → Int) (cls : Int) (v : List Nat)
    (img : Nat → Nat → List Nat) : Nat → Nat → List Nat :=
  fun i j => if grid i j = cls then v else img i j

/-- The colormap loop `for cls, rgb in src.colormap(1).items(): ...`
starting from a given image: one broadcast assignment per colormap entry,
in iteration order; a broadcast failure aborts the whole loop. -/
def recolorFrom (grid : Nat → Nat → Int) (img0 : Nat → Nat → List Nat) :
    List (Int × List Nat) → Option (Nat → Nat → List Nat)
  | [] => some img0
  | e :: rest =>
    match bcastVec e.2 with
    | none => none
    | some v => recolorFrom grid (assignCls grid e.1 v img0) rest

/-- Model of the whole recoloring step of `main`: start from the all-zero
RGBA image and run the colormap loop. -/
def recolor (grid : Nat → Nat → Int) (cmap : List (Int × List Nat)) :
    Option (Nat → Nat → List Nat) :=
  recolorFrom grid zeroImage cmap

/-- Python-dict lookup in the colormap, modelled on the association list
(keys of a dict are pairwise distinct). -/
def lookupCmap (c : Int) : List (Int × List Nat) → Option (List Nat)
  | [] => none
  | e :: rest => if c = e.1 then some e.2 else lookupCmap c rest

/-- The recoloring behaviour as the spec's words state it, used as the
refinement target for `recolor`: each pixel whose class code has a colormap
entry shows that entry's first four channel values; every unmapped pixel is
the zero vector. -/
def specRecolor (grid : Nat → Nat → Int) (cmap : List (Int × List Nat)) :
    Nat → Nat → List Nat :=
  fun i j =>
    match lookupCmap (grid i j) cmap with
    | some rgb => rgb.take 4
    | none => [0, 0, 0, 0]

/-- A key that occurs nowhere in the colormap has no lookup result. -/
theorem lookupCmap_eq_none (c : Int) (l : List (Int × List Nat))
    (h : c ∉ l.map Prod.fst) : lookupCmap c l = none := by
  induction l with
  | nil => rfl
  | cons e rest ih =>
    rw [List.map_cons, List.mem_cons, not_or] at h
    simp [lookupCmap, h.1, ih h.2]

/-- Reducing every element of a list mod 256 is the identity when all
elements are already below 256 (uint8 range). -/
theorem map_mod_of_lt (l : List Nat) (h : ∀ x ∈ l, x < 256) :
    l.map (fun x => x % 256) = l := by
  induction l with
  | nil => rfl
  | cons a rest ih =>
    rw [List.map_cons, Nat.mod_eq_of_lt (h a (by simp)),
      ih (fun x hx => h x (by simp [hx]))]

/-- Running the colormap loop from an arbitrary starting image: with
pairwise-distinct keys (a Python dict) and 4-channel in-range entries
(rasterio RGBA colormaps), the loop succeeds and each pixel shows its
class's first four channel values, or the starting image where unmapped. -/
theorem recolorFrom_spec (grid : Nat → Nat → Int) (cmap : List (Int × List Nat))
    (img0 : Nat → Nat → List Nat)
    (hkeys : (cmap.map Prod.fst).Nodup)
    (hlen : ∀ e ∈ cmap, 4 ≤ e.2.length ∧ ∀ x ∈ e.2.take 4, x < 256) :
    recolorFrom grid img0 cmap = some (fun i j =>
      match lookupCmap (grid i j) cmap with
      | some rgb => rgb.take 4
      | none => img0 i j) := by
  induction cmap generalizing img0 with
  | nil => rfl
  | cons e rest ih =>
    obtain ⟨hlen4, hval⟩ := hlen e (by simp)
    rw [List.map_cons, List.nodup_cons] at hkeys
    have hm : (e.2.take 4).map (fun x => x % 256) = e.2.take 4 := map_mod_of_lt _ hval
    have hl : (e.2.take 4).length = 4 := by
      rw [List.length_take]; omega
    have hv : bcastVec e.2 = some (e.2.take 4) := by
      rw [bcastVec, hm, if_pos hl]
    have hrec := ih (assignCls grid e.1 (e.2.take 4) img0) hkeys.2
      (fun f hf => hlen f (by simp [hf]))
    simp only [recolorFrom, hv]
    rw [hrec]
    congr 1
    funext i j
    by_cases h : grid i j = e.1
    · have h0 : lookupCmap e.1 rest = none := lookupCmap_eq_none _ _ hkeys.1
      simp [lookupCmap, h, h0, assignCls]
    · cases hr : lookupCmap (grid i j) rest <;>
        simp [lookupCmap, h, hr, assignCls]

/-- C3: for any class grid and any colormap as rasterio provides it
(distinct keys, entries with at least four channel values in 0–255),
recoloring succeeds and equals the spec's pixelwise description: the
entry's first four channel values at mapped pixels, the zero vector
(0,0,0,0) at unmapped ones. -/
theorem recolor_matches_lookup (grid : Nat → Nat → Int) (cmap : List (Int × List Nat))
    (hkeys : (cmap.map Prod.fst).Nodup)
    (hlen : ∀ e ∈ cmap, 4 ≤ e.2.length ∧ ∀ x ∈ e.2.take 4, x < 256) :
    recolor grid cmap = some (specRecolor grid cmap) := by
  rw [recolor, recolorFrom_spec grid cmap zeroImage hkeys hlen]
  rfl

/-- A grid fixture with class 11 on row 0 and the nodata code 250 elsewhere. -/
def gridW : Nat → Nat → Int :=
  fun i _ => if i = 0 then 11 else 250

/-- A two-entry RGBA colormap fixture (open water and developed classes). -/
def cmapW : List (Int × List Nat) :=
  [(11, [70, 107, 159, 255]), (21, [222, 197, 197, 255])]

/-- Concrete instance of `recolor_matches_lookup` on `gridW` and `cmapW`. -/
theorem recolor_matches_lookup_witness :
    recolor gridW cmapW = some (specRecolor gridW cmapW) :=
  recolor_matches_lookup gridW cmapW (by decide) (by decide)

/-- C7 counterexample: an entry with three channel values is not partially
applied; the numpy assignment is a broadcast shape mismatch, so recoloring
fails instead of writing (10,20,30,0). -/
theorem short_entry_fails :
    recolor (fun _ _ => (5 : Int)) [(5, [10, 20, 30])] = none := rfl

/-- C7 (amended): a colormap entry with fewer than four values is never
partially applied.  A single-value entry broadcasts that value into all
four channels of matching pixels; an entry with zero, two or three values
makes the whole recoloring fail. -/
theorem short_entry_semantics (grid : Nat → Nat → Int) (c : Int) (x : Nat) (rgb : List Nat)
    (h : rgb.length = 0 ∨ rgb.length = 2 ∨ rgb.length = 3) :
    recolor grid [(c, [x])] =
      some (fun i j => if grid i j = c then List.replicate 4 (x % 256) else [0, 0, 0, 0]) ∧
    recolor grid [(c, rgb)] = none := by
  constructor
  · rfl
  · have hl : ((rgb.take 4).map (fun y => y % 256)).length = rgb.length := by
      simp [List.length_take]; omega
    rcases h with h | h | h <;>
      simp [recolor, recolorFrom, bcastVec, hl, h]

/-- Concrete instance of `short_entry_semantics`: entry `(5, [9])`
broadcasts 9 into all four channels of matching pixels, and entry
`(5, [10, 20])` makes recoloring fail. -/
theorem short_entry_semantics_witness :
    recolor (fun _ _ => (5 : Int)) [(5, [9])] =
      some (fun i j => if (fun _ _ => (5 : Int)) i j = 5 then List.replicate 4 (9 % 256)
        else [0, 0, 0, 0]) ∧
    recolor (fun _ _ => (5 : Int)) [(5, [10, 20])] = none :=
  short_entry_semantics (fun _ _ => 5) 5 9 [10, 20] (Or.inr (Or.inl rfl))

/-- Fuel-indexed ascending enumeration: emit `start` and advance by `step`
while `start < stop`.  The fuel `(stop - start).toNat` is always enough for
`step ≥ 1`. -/
def rangeAscAux : Nat → Int → Int → Int → List Int
  | 0, _, _, _ => []
  | n + 1, start, stop, step =>
    if start < stop then start :: rangeAscAux n (start + step) stop step else []

/-- Python `range(start, stop, step)` for positive `step`. -/
def rangeAsc (start stop step : Int) : List Int :=
  rangeAscAux (stop - start).toNat start stop step

/-- Fuel-indexed descending enumeration, the mirror case for negative
`step`. -/
def rangeDescAux : Nat → Int → Int → Int → List Int
  | 0, _, _, _ => []
  | n + 1, start, stop, step =>
    if stop < start then start :: rangeDescAux n (start + step) stop step else []

/-- Python `range(start, stop, step)` for negative `step`. -/
def rangeDesc (start stop step : Int) : List Int :=
  rangeDescAux (start - stop).toNat start stop step

/-- Model of Python `range(start, stop, step)`: a `ValueError` for
`step = 0`, the ascending half-open enumeration for positive step, the
descending one for negative step. -/
def pyRange (start stop step : Int) : Option (List Int) :=
  if step = 0 then none
  else if 0 < step then some (rangeAsc start stop step)
  else some (rangeDesc start stop step)

/-- One recolored frame: the window dimensions it was clipped to and its
RGBA pixel function. -/
structure Frame where
  dims : Nat × Nat
  pix : Nat → Nat → List Nat

/-- The encoded animation (`imageio.mimsave(..., fps=4, loop=0)`): the
ordered frames, the playback rate and the loop count.  No dimension check
of any kind is applied to the frames. -/
structure AnimatedOutput where
  frames : List Frame
  fps : Nat
  loop : Nat

/-- One iteration of the year loop in `main`: open the year's raster,
resolve the boundary via `get_extent` (which itself always opens the 1985
raster), mask the windowed read with the boundary mask, and recolor with
the raster's colormap.  Fails only if the recoloring assignment fails. -/
def processYear (env : Env) (state county : String) (year : Int) : Option Frame :=
  let src := env.srcOf year
  let extent := get_extent env state county
  let masked := clipData src.nodata (src.readWin extent) (src.maskOf extent)
  (recolor masked src.colormap).map
    (fun img => { dims := src.winShape extent, pix := img })

/-- The `images` list accumulated by the year loop, in iteration order; a
failing iteration aborts the whole run. -/
def buildFrames (env : Env) (state county : String) : List Int → Option (List Frame)
  | [] => some []
  | y :: ys =>
    (processYear env state county y).bind (fun f =>
      (buildFrames env state county ys).map (fun fs => f :: fs))

/-- Model of `main(start, stop, step, state, county)`: iterate
`range(start, stop, step)` with no input validation, build one frame per
year, and hand the frames unchecked to the encoder with `fps=4, loop=0`. -/
def mainModel (env : Env) (start stop step : Int) (state county : String) :
    Option AnimatedOutput :=
  (pyRange start stop step).bind (fun years =>
    (buildFrames env state county years).map
      (fun images => { frames := images, fps := 4, loop := 0 }))

/-- C4: `range(1985, 1994, 8)` enumerates exactly 1985 and 1993 in that
order, and whenever those two years each produce a frame, the run invokes
the clipper exactly twice (once per year, in that order) and outputs an
animation with exactly those 2 frames at 4 frames per second and loop
count 0 (infinite loop). -/
theorem run_1985_1994_8 :
    pyRange 1985 1994 8 = some [1985, 1993] ∧
    ∀ (env : Env) (state county : String) (f1 f2 : Frame),
      processYear env state county 1985 = some f1 →
      processYear env state county 1993 = some f2 →
      mainModel env 1985 1994 8 state county =
        some { frames := [f1, f2], fps := 4, loop := 0 } := by
  refine ⟨by decide, ?_⟩
  intro env state county f1 f2 h1 h2
  rw [mainModel, (by decide : pyRange 1985 1994 8 = some [1985, 1993])]
  simp [buildFrames, h1, h2]

/-- Environment fixture whose rasters carry an empty colormap, so every
year's frame is the all-zero image on a 10×10 window. -/
def envRun : Env :=
  { srcOf := fun _ => srcFix, usa := [] }

/-- The frame every year produces under `envRun`. -/
def frameRun : Frame :=
  { dims := (10, 10), pix := zeroImage }

/-- Concrete instance of `run_1985_1994_8` under `envRun`. -/
theorem run_1985_1994_8_witness :
    mainModel envRun 1985 1994 8 "Maine" "York" =
      some { frames := [frameRun, frameRun], fps := 4, loop := 0 } :=
  (run_1985_1994_8).2 envRun "Maine" "York" frameRun frameRun rfl rfl

/-- Environment fixture whose 1985 raster crops to a 10×10 window while
every other year crops to 11×12 — a frame-dimension mismatch. -/
def envDims : Env :=
  { srcOf := fun y =>
      { crs := 42
        nodata := 250
        colormap := []
        winShape := fun _ => if y = 1985 then (10, 10) else (11, 12)
        readWin := fun _ _ _ => 11
        maskOf := fun _ _ _ => false }
    usa := [] }

/-- The 10×10 frame the 1985 raster produces under `envDims`. -/
def frameA : Frame := { dims := (10, 10), pix := zeroImage }

/-- The 11×12 frame the 1993 raster produces under `envDims`. -/
def frameB : Frame := { dims := (11, 12), pix := zeroImage }

/-- C5: the pipeline performs no dimension check.  Two frames of different
(height, width) are assembled into a successful animation; no
`DimensionMismatchError` (or any error) is raised anywhere in the code. -/
theorem mismatched_frames_not_rejected :
    mainModel envDims 1985 1994 8 "Maine" "York" =
      some { frames := [frameA, frameB], fps := 4, loop := 0 } ∧
    frameA.dims ≠ frameB.dims :=
  ⟨rfl, by decide⟩

/-- C6: `main` performs no input validation.  A call with
`start > stop` silently yields a 0-frame run instead of being rejected,
and a call with `step = -8 < 1` silently iterates the years in descending
order, producing five frames. -/
theorem no_input_validation :
    mainModel envRun 2000 1990 8 "Maine" "York" =
      some { frames := [], fps := 4, loop := 0 } ∧
    mainModel envRun 2023 1985 (-8) "Maine" "York" =
      some { frames := [frameRun, frameRun, frameRun, frameRun, frameRun],
             fps := 4, loop := 0 } :=
  ⟨rfl, rfl⟩

/-- C8 counterexample: with `start = stop = 2000` and `step = 0` the call
fails (Python `range` raises `ValueError` on a zero step) instead of
producing a 0-frame animation. -/
theorem zero_step_fails :
    mainModel envRun 2000 2000 0 "Maine" "York" = none := rfl

/-- C8 (amended): for `start = stop` and any nonzero step the run performs
zero clip iterations and produces an animation with 0 frames; only the
zero step fails. -/
theorem equal_bounds_zero_frames (env : Env) (start step : Int) (state county : String)
    (h : step ≠ 0) :
    mainModel env start start step state county =
      some { frames := [], fps := 4, loop := 0 } := by
  rw [mainModel]
  have hz : (start - start).toNat = 0 := by omega
  rcases lt_trichotomy step 0 with hs | hs | hs
  · rw [pyRange, if_neg h, if_neg (by omega : ¬ (0 : Int) < step), rangeDesc, hz]
    rfl
  · exact absurd hs h
  · rw [pyRange, if_neg h, if_pos hs, rangeAsc, hz]
    rfl

/-- Concrete instance of `equal_bounds_zero_frames` at
`start = stop = 2000`, `step = 8`. -/
theorem equal_bounds_zero_frames_witness :
    mainModel envRun 2000 2000 8 "Maine" "York" =
      some { frames := [], fps := 4, loop := 0 } :=
  equal_bounds_zero_frames envRun 2000 8 "Maine" "York" (by decide)

/-- Inversion for `squeeze`: a scalar result is an element of the series. -/
theorem squeeze_scalar_mem {α : Type} : ∀ (xs : List α) (a : α),
    squeeze xs = Squeezed.scalar a → a ∈ xs
  | [], _, h => by cases h
  | [x], a, h => by
    cases h
    simp
  | x :: y :: rest, _, h => by cases h

/-- Inversion for `squeeze`: a series result is the original list. -/
theorem squeeze_series_eq {α : Type} : ∀ (xs ys : List α),
    squeeze xs = Squeezed.series ys → ys = xs
  | [], _, h => by cases h; rfl
  | [x], _, h => by cases h
  | x :: y :: rest, _, h => by cases h; rfl

/-- C9: the boundary polygon handed to the clipper is the same for every
year of a run.  `get_extent` depends only on the boundary table and the
year-1985 raster (whose tile it opens on every call), and every geometry
it returns is expressed in that 1985 raster's CRS — never in the CRS of
the year being clipped. -/
theorem boundary_crs_invariant (env env2 : Env) (state county : String)
    (husa : env.usa = env2.usa) (hsrc : env.srcOf 1985 = env2.srcOf 1985) :
    get_extent env state county = get_extent env2 state county ∧
    (∀ g, get_extent env state county = Squeezed.scalar g →
      g.crs = (env.srcOf 1985).crs) ∧
    (∀ gs, get_extent env state county = Squeezed.series gs →
      ∀ g ∈ gs, g.crs = (env.srcOf 1985).crs) := by
  have hmem : ∀ g ∈ (queryUSA env.usa state county).map
      (fun r => to_crs (env.srcOf 1985).crs r.geometry),
      g.crs = (env.srcOf 1985).crs := by
    intro g hg
    rcases List.mem_map.mp hg with ⟨r, _, hr2⟩
    rw [← hr2]
    rfl
  refine ⟨by rw [get_extent, get_extent, husa, hsrc], ?_, ?_⟩
  · intro g hg
    exact hmem g (squeeze_scalar_mem _ _ hg)
  · intro gs hgs g hg
    have hge := squeeze_series_eq _ _ hgs
    rw [hge] at hg
    exact hmem g hg

/-- Concrete instance of `boundary_crs_invariant`: the resolved York
boundary under `envFix` carries the 1985 raster's CRS 42. -/
theorem boundary_crs_invariant_witness :
    Geometry.crs ⟨7, 42⟩ = (envFix.srcOf 1985).crs :=
  (boundary_crs_invariant envFix envFix "Maine" "York" rfl rfl).2.1 ⟨7, 42⟩ rfl

/-- The file system seen by the pipeline: a map from paths to contents. -/
def FS : Type := String → Option (List Nat)

/-- Effect of `imageio.mimsave('nlcd.gif', ...)` on the file system: the
fixed relative path `nlcd.gif` now holds the encoded bytes, every other
path is untouched. -/
def writeGif (fs : FS) (bytes : List Nat) : FS :=
  fun p => if p = "nlcd.gif" then some bytes else fs p

/-- Tail of `main`: write the gif, then `open('nlcd.gif', 'rb')` and read
the displayed bytes back from that same path. -/
def displayStep (fs : FS) (bytes : List Nat) : FS × Option (List Nat) :=
  (writeGif fs bytes, writeGif fs bytes "nlcd.gif")

/-- C10: every run stores the encoded animation at the fixed path
`nlcd.gif`, overwriting whatever the path held before, leaves every other
path untouched, and the displayed bytes are exactly the bytes read back
from that path. -/
theorem gif_write_read_spec (fs : FS) (bytes : List Nat) (p : String)
    (hp : p ≠ "nlcd.gif") :
    (displayStep fs bytes).1 "nlcd.gif" = some bytes ∧
    (displayStep fs bytes).1 p = fs p ∧
    (displayStep fs bytes).2 = some bytes := by
  refine ⟨by simp [displayStep, writeGif], ?_, by simp [displayStep, writeGif]⟩
  simp [displayStep, writeGif, hp]

/-- Concrete instance of `gif_write_read_spec`: a pre-existing `nlcd.gif`
is overwritten, `other.txt` is untouched, and the new bytes are displayed. -/
theorem gif_write_read_spec_witness :
    (displayStep (fun _ => some [1, 2, 3]) [7, 8]).1 "nlcd.gif" = some [7, 8] ∧
    (displayStep (fun _ => some [1, 2, 3]) [7, 8]).1 "other.txt" = some [1, 2, 3] ∧
    (displayStep (fun _ => some [1, 2, 3]) [7, 8]).2 = some [7, 8] := by
  have h := gif_write_read_spec (fun _ => some [1, 2, 3]) [7, 8] "other.txt" (by decide)
  exact ⟨h.1, h.2.1.trans rfl, h.2.2⟩

end NLCD
